import Mathlib

/-!
Verification of the `neopixel3.py` wrapper of the rpi_ws281x driver
(`Adafruit_NeoPixel` class and `Color` class).

The Python module is a thin object-oriented wrapper around the generated
`_rpi_ws281x` binding (`ws`).  We embed it shallowly:

* the native `ws2811_t` structure becomes `Ws2811` (two channel slots and
  the per-channel pixel buffer are modelled; slots are indexed by `Nat`,
  the C struct owns slots 0 and 1);
* the Python instance becomes `Adafruit_NeoPixel`: an explicit attribute
  dictionary (Python instances are dynamic, and the class reads attributes
  such as `channel`, `size` and `_led_data` that no method ever assigns,
  so attribute lookup must be modelled, not hard-wired), the exclusively
  owned native structure, call counters for the driver release entry
  points, and the `atexit` registration flag;
* Python exceptions become the `PyErr` inductive and every method returns
  `Except PyErr _`.  The two `RuntimeError`s of the source keep their
  format string, status code and driver message as separate data, so the
  raise site (init vs render) stays observable, exactly as it is in the
  formatted Python message;
* the opaque driver entry points `ws2811_init` and `ws2811_render` report
  a status chosen by the environment: the constructor and `show` take that
  status (`initResp`, `renderResp`) and the driver's status-string lookup
  `ws2811_get_return_t_str` as parameters.
-/

/-- Fields of a `ws2811_channel_t` that the wrapper writes through the
generated per-field setters. -/
inductive ChanField where
  | count
  | gpionum
  | invert
  | brightness
  | stripType
deriving DecidableEq

/-- One observable effect of the constructor, in program order: structure
allocation, a per-field channel setter, the two top-level setters, the
`atexit.register(self._cleanup)` call, and the `ws2811_init` call. -/
inductive Ev where
  | newStruct
  | chanFieldSet (chan : Nat) (field : ChanField) (v : Int)
  | freqSet (v : Int)
  | dmanumSet (v : Int)
  | atexitRegisterCleanup
  | initCall (resp : Int)
deriving DecidableEq

/-- A `ws2811_channel_t` slot: the four scalar fields zeroed by the
constructor, the strip type, and the driver-held pixel buffer accessed
through `ws2811_led_get` / `ws2811_led_set`. -/
structure WsChannel where
  count : Int
  gpionum : Int
  invert : Int
  brightness : Int
  strip_type : Int
  ledData : Int → Int

/-- The native `ws2811_t` structure: channel slots (the C array has
slots 0 and 1; other indices are out of bounds upstream) plus the two
top-level fields the wrapper sets. -/
structure Ws2811 where
  chans : Nat → WsChannel
  freq_hz : Int
  dmanum : Int

/-- Values an instance attribute of the wrapper can hold: Python `None`,
the pointer to the owned `ws2811_t`, or a pointer to channel slot `i` of
that structure (`ws2811_channel_get` returns interior pointers). -/
inductive Attr where
  | pynone
  | ledsRef
  | chanRef (i : Nat)
deriving DecidableEq

/-- Python exceptions the wrapper can raise.  `runtimeError fmt code msg`
is `RuntimeError(fmt.format(code, msg))` with the payload kept as data. -/
inductive PyErr where
  | attributeError (name : String)
  | typeError (msg : String)
  | runtimeError (fmt : String) (code : Int) (msg : String)
deriving DecidableEq

/-- Whether an exception is a `RuntimeError` (the kind carrying a driver
status); used to delimit where the two driver-status errors can arise. -/
def PyErr.isRuntime : PyErr → Bool
  | PyErr.runtimeError _ _ _ => true
  | _ => false

/-- The format string of the `RuntimeError` raised by `__init__`. -/
def initFailFmt : String := "ws2811_init failed with code {0} ({1})"

/-- The format string of the `RuntimeError` raised by `show`. -/
def renderFailFmt : String := "ws2811_render failed with code {0} ({1})"

/-- The spec's `InitializationError`: the error object constructed at the
single raise site inside `__init__`, carrying the driver's numeric status
code and its human-readable message. -/
def InitializationError (code : Int) (msg : String) : PyErr :=
  PyErr.runtimeError initFailFmt code msg

/-- The spec's `RenderError`: the error object constructed at the single
raise site inside `show`, carrying the driver's numeric status code and
its human-readable message. -/
def RenderError (code : Int) (msg : String) : PyErr :=
  PyErr.runtimeError renderFailFmt code msg

/-- `ws.WS2811_SUCCESS`: the driver's success sentinel (0 in ws2811.h). -/
def WS2811_SUCCESS : Int := 0

/-- Instance `__dict__` lookup. -/
def dictGet : List (String × Attr) → String → Option Attr
  | [], _ => none
  | (k', v') :: rest, k => if k' = k then some v' else dictGet rest k

/-- Instance `__dict__` update: replace in place or append. -/
def dictSet : List (String × Attr) → String → Attr → List (String × Attr)
  | [], k, v => [(k, v)]
  | (k', v') :: rest, k, v =>
    if k' = k then (k, v) :: rest else (k', v') :: dictSet rest k v

/-- Update channel slot `i` of a slot array. -/
def updChan (f : Nat → WsChannel) (i : Nat) (c : WsChannel) : Nat → WsChannel :=
  fun j => if j = i then c else f j

/-- Python positional argument of `set_color` / `get_color`: either an
index or a `slice` object (with its optional start/stop/step). -/
inductive Pos where
  | idx (n : Int)
  | slc (start stop step : Option Int)
deriving DecidableEq

/-- A duck-typed Python value as it flows through `set_color`'s `color`
argument and out of `get_color`. -/
inductive PyVal where
  | int (n : Int)
  | list (l : List Int)
deriving DecidableEq

/-- The Python `Adafruit_NeoPixel` instance together with the native
memory it exclusively owns.  `struct` is the allocated `ws2811_t`
(`none` once `delete_ws2811_t` has run); `finiCalls` / `deleteCalls`
count the driver release entry points; `atexitRegistered` records the
`atexit.register(self._cleanup)` call. -/
structure Adafruit_NeoPixel where
  attrs : List (String × Attr)
  struct : Option Ws2811
  finiCalls : Nat
  deleteCalls : Nat
  atexitRegistered : Bool

namespace Adafruit_NeoPixel

/-- Python attribute lookup on the instance (`self.<k>`); the class body
defines no plain data attributes, so a miss raises `AttributeError`. -/
def getattr (s : Adafruit_NeoPixel) (k : String) : Except PyErr Attr :=
  match dictGet s.attrs k with
  | some v => Except.ok v
  | none => Except.error (PyErr.attributeError k)

end Adafruit_NeoPixel

/-- `ws.ws2811_channel_t_count_set(chanPtr, v)` with the constructor's
event trace threaded through. -/
def ws2811_channel_t_count_set (x : Ws2811 × List Ev) (i : Nat) (v : Int) :
    Ws2811 × List Ev :=
  ({ x.1 with chans := updChan x.1.chans i { x.1.chans i with count := v } },
   x.2 ++ [Ev.chanFieldSet i ChanField.count v])

/-- `ws.ws2811_channel_t_gpionum_set(chanPtr, v)`. -/
def ws2811_channel_t_gpionum_set (x : Ws2811 × List Ev) (i : Nat) (v : Int) :
    Ws2811 × List Ev :=
  ({ x.1 with chans := updChan x.1.chans i { x.1.chans i with gpionum := v } },
   x.2 ++ [Ev.chanFieldSet i ChanField.gpionum v])

/-- `ws.ws2811_channel_t_invert_set(chanPtr, v)`. -/
def ws2811_channel_t_invert_set (x : Ws2811 × List Ev) (i : Nat) (v : Int) :
    Ws2811 × List Ev :=
  ({ x.1 with chans := updChan x.1.chans i { x.1.chans i with invert := v } },
   x.2 ++ [Ev.chanFieldSet i ChanField.invert v])

/-- `ws.ws2811_channel_t_brightness_set(chanPtr, v)`. -/
def ws2811_channel_t_brightness_set (x : Ws2811 × List Ev) (i : Nat) (v : Int) :
    Ws2811 × List Ev :=
  ({ x.1 with chans := updChan x.1.chans i { x.1.chans i with brightness := v } },
   x.2 ++ [Ev.chanFieldSet i ChanField.brightness v])

/-- `ws.ws2811_channel_t_strip_type_set(chanPtr, v)`. -/
def ws2811_channel_t_strip_type_set (x : Ws2811 × List Ev) (i : Nat) (v : Int) :
    Ws2811 × List Ev :=
  ({ x.1 with chans := updChan x.1.chans i { x.1.chans i with strip_type := v } },
   x.2 ++ [Ev.chanFieldSet i ChanField.stripType v])

/-- `ws.ws2811_t_freq_set(leds, v)`. -/
def ws2811_t_freq_set (x : Ws2811 × List Ev) (v : Int) : Ws2811 × List Ev :=
  ({ x.1 with freq_hz := v }, x.2 ++ [Ev.freqSet v])

/-- `ws.ws2811_t_dmanum_set(leds, v)`. -/
def ws2811_t_dmanum_set (x : Ws2811 × List Ev) (v : Int) : Ws2811 × List Ev :=
  ({ x.1 with dmanum := v }, x.2 ++ [Ev.dmanumSet v])

/-- The structure-filling prefix of `Adafruit_NeoPixel.__init__`, line for
line: allocation of the native structure, the channel-zeroing loop, the
population of the selected channel slot, and the two top-level setters.

`garbage` is the uninitialized content of the structure returned by
`ws.new_ws2811_t()` (C allocation gives no zeroing guarantee: the explicit
channel-zeroing loop in the source is only meaningful against arbitrary
initial contents). -/
def builtStruct (garbage : Ws2811) (num pin freq_hz dma : Int)
    (invert : Bool) (brightness : Int) (channel : Nat) (strip_type : Int) :
    Ws2811 × List Ev :=
  -- self._leds = ws.new_ws2811_t()
  let x : Ws2811 × List Ev := (garbage, [Ev.newStruct])
  -- for channum in range(2):
  --     chan = ws.ws2811_channel_get(self._leds, channum)
  --     ws.ws2811_channel_t_count_set(chan, 0)      (and gpionum, invert,
  --     brightness; strip_type is not zeroed)
  let x := ws2811_channel_t_count_set x 0 0
  let x := ws2811_channel_t_gpionum_set x 0 0
  let x := ws2811_channel_t_invert_set x 0 0
  let x := ws2811_channel_t_brightness_set x 0 0
  let x := ws2811_channel_t_count_set x 1 0
  let x := ws2811_channel_t_gpionum_set x 1 0
  let x := ws2811_channel_t_invert_set x 1 0
  let x := ws2811_channel_t_brightness_set x 1 0
  -- self._channel = ws.ws2811_channel_get(self._leds, channel)
  -- (pointer to slot `channel`; stored in the instance dict below)
  let x := ws2811_channel_t_count_set x channel num
  let x := ws2811_channel_t_gpionum_set x channel pin
  let x := ws2811_channel_t_invert_set x channel (if !invert then 0 else 1)
  let x := ws2811_channel_t_brightness_set x channel brightness
  let x := ws2811_channel_t_strip_type_set x channel strip_type
  -- ws.ws2811_t_freq_set(self._leds, freq_hz); ws.ws2811_t_dmanum_set(...)
  let x := ws2811_t_freq_set x freq_hz
  let x := ws2811_t_dmanum_set x dma
  x

namespace Adafruit_NeoPixel

/-- `Adafruit_NeoPixel.__init__`: fill the native structure
(`builtStruct`), register the process-exit cleanup callback, then call
the driver's init entry point.  `initResp` is the status the opaque
driver returns from `ws.ws2811_init`, and `ws2811_get_return_t_str` its
status-string lookup.  The result is the ordered trace of observable
effects and either the raised exception or the constructed instance. -/
def init (garbage : Ws2811) (num pin freq_hz dma : Int) (invert : Bool)
    (brightness : Int) (channel : Nat) (strip_type : Int)
    (initResp : Int) (ws2811_get_return_t_str : Int → String) :
    List Ev × Except PyErr Adafruit_NeoPixel :=
  let x := builtStruct garbage num pin freq_hz dma invert brightness
    channel strip_type
  -- atexit.register(self._cleanup)
  let tr := x.2 ++ [Ev.atexitRegisterCleanup]
  -- resp = ws.ws2811_init(self._leds)
  let resp := initResp
  let tr := tr ++ [Ev.initCall resp]
  (tr,
   if resp ≠ WS2811_SUCCESS then
     -- message = ws.ws2811_get_return_t_str(resp); raise RuntimeError(...)
     Except.error (PyErr.runtimeError initFailFmt resp
       (ws2811_get_return_t_str resp))
   else
     -- the instance dict after __init__ holds exactly the two attributes
     -- assigned by the constructor, in assignment order
     Except.ok
       { attrs := [("_leds", Attr.ledsRef), ("_channel", Attr.chanRef channel)],
         struct := some x.1,
         finiCalls := 0,
         deleteCalls := 0,
         atexitRegistered := true })

end Adafruit_NeoPixel

/-- `ws.ws2811_channel_t_count_get(chanPtr)`: read the count field of the
referenced channel slot out of the owned native structure; a non-pointer
argument (for instance `None` after teardown) is rejected by the generated
binding with a `TypeError`. -/
def ws2811_channel_t_count_get (s : Adafruit_NeoPixel) (c : Attr) :
    Except PyErr Int :=
  match c, s.struct with
  | Attr.chanRef i, some w => Except.ok ((w.chans i).count)
  | _, _ =>
    Except.error (PyErr.typeError
      "in method ws2811_channel_t_count_get, argument 1 of type ws2811_channel_t *")

/-- `ws.ws2811_led_set(chanPtr, n, color)`: write one packed value into
the driver-held pixel buffer of the referenced channel slot (the binding
requires an integer color and a channel pointer). -/
def ws2811_led_set (s : Adafruit_NeoPixel) (c : Attr) (n : Int)
    (color : PyVal) : Except PyErr Adafruit_NeoPixel :=
  match c, color, s.struct with
  | Attr.chanRef i, PyVal.int v, some w =>
    let chan := w.chans i
    let chan' := { chan with
      ledData := fun m => if m = n then v else chan.ledData m }
    Except.ok { s with struct := some { w with chans := updChan w.chans i chan' } }
  | _, _, _ =>
    Except.error (PyErr.typeError
      "in method ws2811_led_set, argument 1 of type ws2811_channel_t *")

/-- `ws.ws2811_led_get(chanPtr, n)`: read one packed value from the
driver-held pixel buffer of the referenced channel slot. -/
def ws2811_led_get (s : Adafruit_NeoPixel) (c : Attr) (n : Int) :
    Except PyErr Int :=
  match c, s.struct with
  | Attr.chanRef i, some w => Except.ok ((w.chans i).ledData n)
  | _, _ =>
    Except.error (PyErr.typeError
      "in method ws2811_led_get, argument 1 of type ws2811_channel_t *")

namespace Adafruit_NeoPixel

/-- `Adafruit_NeoPixel._cleanup`: release the native structure exactly
once; the `self._leds is not None` guard makes a second call a no-op. -/
def _cleanup (s : Adafruit_NeoPixel) : Except PyErr Adafruit_NeoPixel :=
  -- if self._leds is not None:
  match s.getattr "_leds" with
  | Except.error e => Except.error e
  | Except.ok l =>
    if l ≠ Attr.pynone then
      -- ws.ws2811_fini(self._leds); ws.delete_ws2811_t(self._leds)
      -- self._leds = None; self._channel = None
      Except.ok { s with
        finiCalls := s.finiCalls + 1,
        deleteCalls := s.deleteCalls + 1,
        struct := none,
        attrs := dictSet (dictSet s.attrs "_leds" Attr.pynone)
          "_channel" Attr.pynone }
    else
      Except.ok s

/-- `Adafruit_NeoPixel.__del__`: in this embedding the imported binding
module `ws` is always set, so the guard passes and `_cleanup` runs. -/
def __del__ (s : Adafruit_NeoPixel) : Except PyErr Adafruit_NeoPixel :=
  s._cleanup

/-- `Adafruit_NeoPixel.show`: call the driver's render entry point (its
status is the environment-chosen `renderResp`) and raise on non-success. -/
def «show» (s : Adafruit_NeoPixel) (renderResp : Int)
    (ws2811_get_return_t_str : Int → String) : Except PyErr Unit :=
  -- resp = ws.ws2811_render(self._leds)
  match s.getattr "_leds" with
  | Except.error e => Except.error e
  | Except.ok _ =>
    let resp := renderResp
    if resp ≠ WS2811_SUCCESS then
      -- message = ws.ws2811_get_return_t_str(resp); raise RuntimeError(...)
      Except.error (PyErr.runtimeError renderFailFmt resp
        (ws2811_get_return_t_str resp))
    else
      Except.ok ()

/-- `Adafruit_NeoPixel.pixel_count` (property): read the count field of
the active channel from the native structure at call time. -/
def pixel_count (s : Adafruit_NeoPixel) : Except PyErr Int :=
  -- return ws.ws2811_channel_t_count_get(self._channel)
  match s.getattr "_channel" with
  | Except.error e => Except.error e
  | Except.ok c => ws2811_channel_t_count_get s c

/-- `Adafruit_NeoPixel.set_color`, line for line.  Both branches read
instance attributes (`size`, `channel`) that no method of the class ever
assigns; Python evaluates them before any driver call. -/
def set_color (s : Adafruit_NeoPixel) (position : Pos) (color : PyVal) :
    Except PyErr Adafruit_NeoPixel :=
  match position with
  | Pos.slc _ _ _ =>
    -- index = 0
    -- for n in range(position.indices(self.size)):
    --   the argument expression reads self.size first
    (match s.getattr "size" with
     | Except.error e => Except.error e
     | Except.ok _ =>
       -- position.indices(...) returns a 3-tuple, which range() rejects
       Except.error (PyErr.typeError
         "range argument is a tuple, not an integer"))
  | Pos.idx n =>
    -- return ws.ws2811_led_set(self.channel, position, color)
    (match s.getattr "channel" with
     | Except.error e => Except.error e
     | Except.ok c => ws2811_led_set s c n color)

/-- `Adafruit_NeoPixel.set_brightness`: write the brightness field of the
active channel in the native structure. -/
def set_brightness (s : Adafruit_NeoPixel) (brightness : Int) :
    Except PyErr Adafruit_NeoPixel :=
  -- ws.ws2811_channel_t_brightness_set(self._channel, brightness)
  match s.getattr "_channel" with
  | Except.error e => Except.error e
  | Except.ok c =>
    match c, s.struct with
    | Attr.chanRef i, some w =>
      let chan' := { w.chans i with brightness := brightness }
      Except.ok { s with struct := some { w with chans := updChan w.chans i chan' } }
    | _, _ =>
      Except.error (PyErr.typeError
        "in method ws2811_channel_t_brightness_set, argument 1 of type ws2811_channel_t *")

/-- `Adafruit_NeoPixel.get_pixels`: `return self._led_data`. -/
def get_pixels (s : Adafruit_NeoPixel) : Except PyErr Attr :=
  s.getattr "_led_data"

/-- `Adafruit_NeoPixel.get_color`, line for line; same unassigned
attribute reads as `set_color`. -/
def get_color (s : Adafruit_NeoPixel) (position : Pos) :
    Except PyErr PyVal :=
  match position with
  | Pos.slc _ _ _ =>
    -- return [ws.ws2811_led_get(self.channel, n)
    --         for n in range(position.indices(self.size))]
    --   the iterable is evaluated first and reads self.size
    (match s.getattr "size" with
     | Except.error e => Except.error e
     | Except.ok _ =>
       Except.error (PyErr.typeError
         "range argument is a tuple, not an integer"))
  | Pos.idx n =>
    -- return ws.ws2811_led_get(self.channel, position)
    (match s.getattr "channel" with
     | Except.error e => Except.error e
     | Except.ok c =>
       match ws2811_led_get s c n with
       | Except.error e => Except.error e
       | Except.ok v => Except.ok (PyVal.int v))

/-- `Adafruit_NeoPixel.__setitem__`: `self.set_color(position, color)`. -/
def __setitem__ (s : Adafruit_NeoPixel) (position : Pos) (color : PyVal) :
    Except PyErr Adafruit_NeoPixel :=
  s.set_color position color

/-- `Adafruit_NeoPixel.__getitem__`: `return self.get_color(position)`. -/
def __getitem__ (s : Adafruit_NeoPixel) (position : Pos) :
    Except PyErr PyVal :=
  s.get_color position

end Adafruit_NeoPixel

/-- The instance states a client can actually hold: freshly constructed,
or the successful result of any state-changing operation of the class
(teardown via `_cleanup` or `__del__`, `set_brightness`, `set_color` or
its `__setitem__` alias).  `show`, `get_color`, `get_pixels` and
`pixel_count` do not produce new instance states. -/
inductive Reachable : Adafruit_NeoPixel → Prop where
  | constructed (garbage : Ws2811) (num pin freq_hz dma : Int)
      (invert : Bool) (brightness : Int) (channel : Nat) (strip_type : Int)
      (initResp : Int) (retStr : Int → String) (s : Adafruit_NeoPixel) :
      (Adafruit_NeoPixel.init garbage num pin freq_hz dma invert brightness
        channel strip_type initResp retStr).2 = Except.ok s →
      Reachable s
  | cleanupStep (s s' : Adafruit_NeoPixel) : Reachable s →
      s._cleanup = Except.ok s' → Reachable s'
  | delStep (s s' : Adafruit_NeoPixel) : Reachable s →
      s.__del__ = Except.ok s' → Reachable s'
  | brightnessStep (s s' : Adafruit_NeoPixel) (b : Int) : Reachable s →
      s.set_brightness b = Except.ok s' → Reachable s'
  | setColorStep (s s' : Adafruit_NeoPixel) (p : Pos) (c : PyVal) :
      Reachable s → s.set_color p c = Except.ok s' → Reachable s'
  | setitemStep (s s' : Adafruit_NeoPixel) (p : Pos) (c : PyVal) :
      Reachable s → s.__setitem__ p c = Except.ok s' → Reachable s'

/-- The `Color` class: its constructor packs four 8-bit intensity
components (each documented as a value 0-255) into one value. -/
structure Color where
  value : Nat

/-- `Color.__init__`: `self.value = (white << 24) | (red << 16) |
(green << 8) | blue` (the `white` parameter defaults to 0 in Python). -/
def Color.make (red green blue white : Nat) : Color :=
  ⟨(white <<< 24) ||| (red <<< 16) ||| (green <<< 8) ||| blue⟩

/-- A concrete driver status-string lookup, standing in for the opaque
`ws2811_get_return_t_str` in closed instances. -/
def retStr0 : Int → String :=
  fun c => if c = 0 then "Success" else "Generic failure"

/-- Concrete arbitrary contents of a freshly allocated `ws2811_t`,
standing in for the unspecified result of `ws.new_ws2811_t()` in closed
instances (deliberately nonzero, so the zeroing loop is observable). -/
def garb0 : Ws2811 :=
  { chans := fun _ =>
      { count := 11, gpionum := 12, invert := 13, brightness := 14,
        strip_type := 15, ledData := fun _ => 9 },
    freq_hz := 21, dmanum := 22 }

/-- A concrete successfully constructed strip: 3 pixels on GPIO 18, all
remaining construction arguments at their Python defaults
(`freq_hz=800000`, `dma=5`, `invert=False`, `brightness=255`,
`channel=0`, `strip_type=ws.WS2811_STRIP_RGB = 0x00100800`), with the
driver reporting success. -/
def strip0 : Adafruit_NeoPixel :=
  match (Adafruit_NeoPixel.init garb0 3 18 800000 5 false 255 0 1052688
      0 retStr0).2 with
  | Except.ok s => s
  | Except.error _ =>
    { attrs := [], struct := none, finiCalls := 0, deleteCalls := 0,
      atexitRegistered := false }

/-- The state of `strip0` after one `_cleanup` call. -/
def strip0c : Adafruit_NeoPixel :=
  match strip0._cleanup with
  | Except.ok s => s
  | Except.error _ => strip0

/-- `dictGet` after `dictSet`, the usual association-list law. -/
theorem dictGet_dictSet (d : List (String × Attr)) (k k' : String) (v : Attr) :
    dictGet (dictSet d k v) k' = if k = k' then some v else dictGet d k' := by
  induction d with
  | nil => simp [dictSet, dictGet]
  | cons a rest ih =>
    obtain ⟨k0, v0⟩ := a
    by_cases h0 : k0 = k
    · subst h0
      simp [dictSet, dictGet]
      split_ifs <;> simp_all [dictGet]
    · simp [dictSet, dictGet, h0, ih]
      split_ifs <;> simp_all [dictGet]

/-- The result component of the constructor: the raised
`InitializationError` on a non-success status, the instance otherwise. -/
theorem init_snd (g : Ws2811) (num pin f d : Int) (inv : Bool) (b : Int)
    (ch : Nat) (st r : Int) (rs : Int → String) :
    (Adafruit_NeoPixel.init g num pin f d inv b ch st r rs).2 =
      if r ≠ WS2811_SUCCESS then
        Except.error (InitializationError r (rs r))
      else
        Except.ok
          { attrs := [("_leds", Attr.ledsRef), ("_channel", Attr.chanRef ch)],
            struct := some (builtStruct g num pin f d inv b ch st).1,
            finiCalls := 0, deleteCalls := 0, atexitRegistered := true } := rfl

/-- The full ordered effect trace of the constructor. -/
theorem init_fst (g : Ws2811) (num pin f d : Int) (inv : Bool) (b : Int)
    (ch : Nat) (st r : Int) (rs : Int → String) :
    (Adafruit_NeoPixel.init g num pin f d inv b ch st r rs).1 =
      [Ev.newStruct,
       Ev.chanFieldSet 0 ChanField.count 0,
       Ev.chanFieldSet 0 ChanField.gpionum 0,
       Ev.chanFieldSet 0 ChanField.invert 0,
       Ev.chanFieldSet 0 ChanField.brightness 0,
       Ev.chanFieldSet 1 ChanField.count 0,
       Ev.chanFieldSet 1 ChanField.gpionum 0,
       Ev.chanFieldSet 1 ChanField.invert 0,
       Ev.chanFieldSet 1 ChanField.brightness 0,
       Ev.chanFieldSet ch ChanField.count num,
       Ev.chanFieldSet ch ChanField.gpionum pin,
       Ev.chanFieldSet ch ChanField.invert (if !inv then 0 else 1),
       Ev.chanFieldSet ch ChanField.brightness b,
       Ev.chanFieldSet ch ChanField.stripType st,
       Ev.freqSet f,
       Ev.dmanumSet d,
       Ev.atexitRegisterCleanup,
       Ev.initCall r] := by
  simp [Adafruit_NeoPixel.init, builtStruct, ws2811_channel_t_count_set,
        ws2811_channel_t_gpionum_set, ws2811_channel_t_invert_set,
        ws2811_channel_t_brightness_set, ws2811_channel_t_strip_type_set,
        ws2811_t_freq_set, ws2811_t_dmanum_set]

/-- A successful construction forces a success status and determines the
instance state completely. -/
theorem init_ok_elim (g : Ws2811) (num pin f d : Int) (inv : Bool) (b : Int)
    (ch : Nat) (st r : Int) (rs : Int → String) (s : Adafruit_NeoPixel)
    (h : (Adafruit_NeoPixel.init g num pin f d inv b ch st r rs).2 =
      Except.ok s) :
    r = WS2811_SUCCESS ∧
    s = { attrs := [("_leds", Attr.ledsRef), ("_channel", Attr.chanRef ch)],
          struct := some (builtStruct g num pin f d inv b ch st).1,
          finiCalls := 0, deleteCalls := 0, atexitRegistered := true } := by
  rw [init_snd] at h
  by_cases hr : r = WS2811_SUCCESS
  · refine ⟨hr, ?_⟩
    simp [hr] at h
    exact h.symm
  · simp [hr] at h

/-- The selected channel slot after the constructor's structure filling. -/
theorem builtStruct_chans_sel (g : Ws2811) (num pin f d : Int) (inv : Bool)
    (b : Int) (ch : Nat) (st : Int) :
    ((builtStruct g num pin f d inv b ch st).1).chans ch =
      { count := num, gpionum := pin, invert := if !inv then 0 else 1,
        brightness := b, strip_type := st,
        ledData := (g.chans ch).ledData } := by
  simp [builtStruct, ws2811_channel_t_count_set, ws2811_channel_t_gpionum_set,
        ws2811_channel_t_invert_set, ws2811_channel_t_brightness_set,
        ws2811_channel_t_strip_type_set, ws2811_t_freq_set,
        ws2811_t_dmanum_set, updChan]
  split_ifs <;> simp_all

/-- The unselected hardware channel slot after the constructor's
structure filling: the four zeroed fields stay zero, the rest keeps the
allocation's contents. -/
theorem builtStruct_chans_other (g : Ws2811) (num pin f d : Int) (inv : Bool)
    (b : Int) (ch : Nat) (st : Int) (j : Nat) (hj : j = 0 ∨ j = 1)
    (hne : j ≠ ch) :
    ((builtStruct g num pin f d inv b ch st).1).chans j =
      { count := 0, gpionum := 0, invert := 0, brightness := 0,
        strip_type := (g.chans j).strip_type,
        ledData := (g.chans j).ledData } := by
  rcases hj with hj | hj <;> subst hj <;>
    simp [builtStruct, ws2811_channel_t_count_set, ws2811_channel_t_gpionum_set,
          ws2811_channel_t_invert_set, ws2811_channel_t_brightness_set,
          ws2811_channel_t_strip_type_set, ws2811_t_freq_set,
          ws2811_t_dmanum_set, updChan, hne]

theorem getattr_error_shape (s : Adafruit_NeoPixel) (k : String) (e : PyErr)
    (h : s.getattr k = Except.error e) : e = PyErr.attributeError k := by
  unfold Adafruit_NeoPixel.getattr at h
  cases hL : dictGet s.attrs k <;> rw [hL] at h <;> simp_all

theorem led_set_error_shape (s : Adafruit_NeoPixel) (c : Attr) (n : Int)
    (color : PyVal) (e : PyErr)
    (h : ws2811_led_set s c n color = Except.error e) :
    e.isRuntime = false := by
  unfold ws2811_led_set at h
  cases hS : s.struct <;> rw [hS] at h <;> cases c <;> cases color <;>
    simp at h <;> subst h <;> rfl

theorem led_get_error_shape (s : Adafruit_NeoPixel) (c : Attr) (n : Int)
    (e : PyErr) (h : ws2811_led_get s c n = Except.error e) :
    e.isRuntime = false := by
  unfold ws2811_led_get at h
  cases hS : s.struct <;> rw [hS] at h <;> cases c <;>
    simp at h <;> subst h <;> rfl

theorem set_color_error_shape (s : Adafruit_NeoPixel) (p : Pos) (c : PyVal)
    (e : PyErr) (h : s.set_color p c = Except.error e) :
    e.isRuntime = false := by
  unfold Adafruit_NeoPixel.set_color at h
  cases p with
  | slc a b st =>
    cases hG : s.getattr "size" with
    | error e0 =>
      rw [hG] at h
      simp at h
      subst h
      rw [getattr_error_shape s "size" e0 hG]
      rfl
    | ok v =>
      rw [hG] at h
      simp at h
      subst h
      rfl
  | idx n =>
    cases hG : s.getattr "channel" with
    | error e0 =>
      rw [hG] at h
      simp at h
      subst h
      rw [getattr_error_shape s "channel" e0 hG]
      rfl
    | ok v =>
      rw [hG] at h
      simp at h
      exact led_set_error_shape s v n c e h

theorem get_color_error_shape (s : Adafruit_NeoPixel) (p : Pos) (e : PyErr)
    (h : s.get_color p = Except.error e) : e.isRuntime = false := by
  unfold Adafruit_NeoPixel.get_color at h
  cases p with
  | slc a b st =>
    cases hG : s.getattr "size" with
    | error e0 =>
      rw [hG] at h
      simp at h
      subst h
      rw [getattr_error_shape s "size" e0 hG]
      rfl
    | ok v =>
      rw [hG] at h
      simp at h
      subst h
      rfl
  | idx n =>
    cases hG : s.getattr "channel" with
    | error e0 =>
      rw [hG] at h
      simp at h
      subst h
      rw [getattr_error_shape s "channel" e0 hG]
      rfl
    | ok v =>
      rw [hG] at h
      simp at h
      cases hR : ws2811_led_get s v n with
      | error e1 =>
        rw [hR] at h
        simp at h
        subst h
        exact led_get_error_shape s v n e1 hR
      | ok r => rw [hR] at h; simp at h

theorem pixel_count_error_shape (s : Adafruit_NeoPixel) (e : PyErr)
    (h : s.pixel_count = Except.error e) : e.isRuntime = false := by
  unfold Adafruit_NeoPixel.pixel_count ws2811_channel_t_count_get at h
  cases hG : s.getattr "_channel" with
  | error e0 =>
    rw [hG] at h
    simp at h
    subst h
    rw [getattr_error_shape s "_channel" e0 hG]
    rfl
  | ok v =>
    rw [hG] at h
    simp at h
    cases hS : s.struct <;> rw [hS] at h <;> cases v <;>
      simp at h <;> subst h <;> rfl

theorem set_brightness_error_shape (s : Adafruit_NeoPixel) (b : Int)
    (e : PyErr) (h : s.set_brightness b = Except.error e) :
    e.isRuntime = false := by
  unfold Adafruit_NeoPixel.set_brightness at h
  cases hG : s.getattr "_channel" with
  | error e0 =>
    rw [hG] at h
    simp at h
    subst h
    rw [getattr_error_shape s "_channel" e0 hG]
    rfl
  | ok v =>
    rw [hG] at h
    simp at h
    cases hS : s.struct <;> rw [hS] at h <;> cases v <;>
      simp at h <;> subst h <;> rfl

theorem cleanup_error_shape (s : Adafruit_NeoPixel) (e : PyErr)
    (h : s._cleanup = Except.error e) : e.isRuntime = false := by
  unfold Adafruit_NeoPixel._cleanup at h
  cases hG : s.getattr "_leds" with
  | error e0 =>
    rw [hG] at h
    simp at h
    subst h
    rw [getattr_error_shape s "_leds" e0 hG]
    rfl
  | ok v =>
    rw [hG] at h
    simp at h
    split at h <;> simp at h

theorem get_pixels_error_shape (s : Adafruit_NeoPixel) (e : PyErr)
    (h : s.get_pixels = Except.error e) : e.isRuntime = false := by
  rw [getattr_error_shape s "_led_data" e h]
  rfl

theorem led_set_attrs (s s' : Adafruit_NeoPixel) (c : Attr) (n : Int)
    (color : PyVal) (h : ws2811_led_set s c n color = Except.ok s') :
    s'.attrs = s.attrs := by
  unfold ws2811_led_set at h
  cases hS : s.struct <;> rw [hS] at h <;> cases c <;> cases color <;>
    simp at h <;> subst h <;> rfl

theorem set_color_attrs (s s' : Adafruit_NeoPixel) (p : Pos) (c : PyVal)
    (h : s.set_color p c = Except.ok s') : s'.attrs = s.attrs := by
  unfold Adafruit_NeoPixel.set_color at h
  cases p with
  | slc a b st =>
    cases hG : s.getattr "size" with
    | error e0 => rw [hG] at h; simp at h
    | ok v => rw [hG] at h; simp at h
  | idx n =>
    cases hG : s.getattr "channel" with
    | error e0 => rw [hG] at h; simp at h
    | ok v =>
      rw [hG] at h
      simp at h
      exact led_set_attrs s s' v n c h

theorem set_brightness_attrs (s s' : Adafruit_NeoPixel) (b : Int)
    (h : s.set_brightness b = Except.ok s') : s'.attrs = s.attrs := by
  unfold Adafruit_NeoPixel.set_brightness at h
  cases hG : s.getattr "_channel" with
  | error e0 => rw [hG] at h; simp at h
  | ok v =>
    rw [hG] at h
    simp at h
    cases hS : s.struct <;> rw [hS] at h <;> cases v <;>
      simp at h <;> subst h <;> rfl

theorem cleanup_preserves_unassigned (s s' : Adafruit_NeoPixel)
    (h : s._cleanup = Except.ok s')
    (ih : dictGet s.attrs "channel" = none ∧ dictGet s.attrs "size" = none ∧
      dictGet s.attrs "_led_data" = none) :
    dictGet s'.attrs "channel" = none ∧ dictGet s'.attrs "size" = none ∧
    dictGet s'.attrs "_led_data" = none := by
  obtain ⟨ih1, ih2, ih3⟩ := ih
  unfold Adafruit_NeoPixel._cleanup at h
  cases hG : s.getattr "_leds" with
  | error e0 => rw [hG] at h; simp at h
  | ok v =>
    rw [hG] at h
    simp at h
    split at h <;> simp at h <;> subst h <;>
      refine ⟨?_, ?_, ?_⟩ <;> simp [dictGet_dictSet, ih1, ih2, ih3]

theorem reachable_unassigned (s : Adafruit_NeoPixel) (hs : Reachable s) :
    dictGet s.attrs "channel" = none ∧ dictGet s.attrs "size" = none ∧
    dictGet s.attrs "_led_data" = none := by
  induction hs with
  | constructed g num pin f d inv b ch st r rs s h =>
    obtain ⟨-, rfl⟩ := init_ok_elim g num pin f d inv b ch st r rs s h
    exact ⟨rfl, rfl, rfl⟩
  | cleanupStep s s' hR h ih => exact cleanup_preserves_unassigned s s' h ih
  | delStep s s' hR h ih => exact cleanup_preserves_unassigned s s' h ih
  | brightnessStep s s' b hR h ih =>
    obtain ⟨i1, i2, i3⟩ := ih
    rw [set_brightness_attrs s s' b h]
    exact ⟨i1, i2, i3⟩
  | setColorStep s s' p c hR h ih =>
    obtain ⟨i1, i2, i3⟩ := ih
    rw [set_color_attrs s s' p c h]
    exact ⟨i1, i2, i3⟩
  | setitemStep s s' p c hR h ih =>
    obtain ⟨i1, i2, i3⟩ := ih
    rw [set_color_attrs s s' p c h]
    exact ⟨i1, i2, i3⟩

/-- The render path of `show` on any instance whose `_leds` attribute is
present (every constructed strip): the driver status alone decides the
outcome. -/
theorem show_spec (s : Adafruit_NeoPixel) (a : Attr)
    (hA : dictGet s.attrs "_leds" = some a) (r2 : Int) (rs2 : Int → String) :
    s.«show» r2 rs2 =
      if r2 ≠ WS2811_SUCCESS then
        Except.error (RenderError r2 (rs2 r2))
      else
        Except.ok () := by
  unfold Adafruit_NeoPixel.«show» Adafruit_NeoPixel.getattr
  rw [hA]
  rfl

/-- C3: construction raises an `InitializationError` carrying the
driver's numeric status code and its human-readable message exactly when
`ws2811_init` returns a non-success status; on success it raises
nothing; and it raises nothing else.  All of this holds for arbitrary
numeric inputs (including out-of-range ones), so no other input
validation is performed by the constructor. -/
theorem c3_construction_raises_initialization_error_iff
    (g : Ws2811) (num pin f d : Int) (inv : Bool) (b : Int) (ch : Nat)
    (st r : Int) (rs : Int → String) (e : PyErr) :
    ((Adafruit_NeoPixel.init g num pin f d inv b ch st r rs).2 =
        Except.error (InitializationError r (rs r)) ↔ r ≠ WS2811_SUCCESS) ∧
    (((Adafruit_NeoPixel.init g num pin f d inv b ch st r rs).2).isOk = true
        ↔ r = WS2811_SUCCESS) ∧
    ((Adafruit_NeoPixel.init g num pin f d inv b ch st r rs).2 =
        Except.error e → e = InitializationError r (rs r)) := by
  rw [init_snd]
  by_cases hr : r = WS2811_SUCCESS <;>
    simp [hr, Except.isOk, Except.toBool]
  intro h
  exact h.symm

/-- C3 witness: with the driver reporting status -5, construction raises
`InitializationError(-5, <driver message>)`; the success criterion is
decided by that status alone. -/
theorem c3_witness :
    ((Adafruit_NeoPixel.init garb0 3 18 800000 5 false 255 0 1052688
        (-5) retStr0).2 =
      Except.error (InitializationError (-5) (retStr0 (-5))) ↔
        (-5 : Int) ≠ WS2811_SUCCESS) ∧
    (((Adafruit_NeoPixel.init garb0 3 18 800000 5 false 255 0 1052688
        (-5) retStr0).2).isOk = true ↔ (-5 : Int) = WS2811_SUCCESS) ∧
    ((Adafruit_NeoPixel.init garb0 3 18 800000 5 false 255 0 1052688
        (-5) retStr0).2 = Except.error (PyErr.attributeError "x") →
      PyErr.attributeError "x" = InitializationError (-5) (retStr0 (-5))) :=
  c3_construction_raises_initialization_error_iff garb0 3 18 800000 5 false
    255 0 1052688 (-5) retStr0 (PyErr.attributeError "x")

/-- C4: on a constructed strip, `show()` raises a `RenderError` carrying
the driver's numeric status code and message exactly when `ws2811_render`
reports non-success, returns normally on success, and raises nothing
else; construction errors are always `InitializationError`s; and no other
operation of the class can produce a `RuntimeError`-kind (driver status)
exception at all, so `RenderError` arises only from `show()` and
`InitializationError` only from construction. -/
theorem c4_show_raises_render_error_iff
    (g : Ws2811) (num pin f d : Int) (inv : Bool) (b : Int) (ch : Nat)
    (st r : Int) (rs : Int → String) (s : Adafruit_NeoPixel)
    (hs : (Adafruit_NeoPixel.init g num pin f d inv b ch st r rs).2 =
      Except.ok s)
    (r2 : Int) (rs2 : Int → String) (e : PyErr)
    (g3 : Ws2811) (num3 pin3 f3 d3 : Int) (inv3 : Bool) (b3 : Int)
    (ch3 : Nat) (st3 r3 : Int) (rs3 : Int → String) (e0 : PyErr)
    (t : Adafruit_NeoPixel) (p : Pos) (c : PyVal) (b2 : Int)
    (e1 e2 e3 e4 e5 e6 e7 e8 e9 : PyErr) :
    (s.«show» r2 rs2 = Except.error (RenderError r2 (rs2 r2)) ↔
      r2 ≠ WS2811_SUCCESS) ∧
    (s.«show» r2 rs2 = Except.ok () ↔ r2 = WS2811_SUCCESS) ∧
    (s.«show» r2 rs2 = Except.error e → e = RenderError r2 (rs2 r2)) ∧
    ((Adafruit_NeoPixel.init g3 num3 pin3 f3 d3 inv3 b3 ch3 st3 r3 rs3).2 =
      Except.error e0 → e0 = InitializationError r3 (rs3 r3)) ∧
    (t.set_color p c = Except.error e1 → e1.isRuntime = false) ∧
    (t.get_color p = Except.error e2 → e2.isRuntime = false) ∧
    (t.pixel_count = Except.error e3 → e3.isRuntime = false) ∧
    (t.set_brightness b2 = Except.error e4 → e4.isRuntime = false) ∧
    (t._cleanup = Except.error e5 → e5.isRuntime = false) ∧
    (t.__del__ = Except.error e6 → e6.isRuntime = false) ∧
    (t.get_pixels = Except.error e7 → e7.isRuntime = false) ∧
    (t.__setitem__ p c = Except.error e8 → e8.isRuntime = false) ∧
    (t.__getitem__ p = Except.error e9 → e9.isRuntime = false) := by
  obtain ⟨-, rfl⟩ := init_ok_elim g num pin f d inv b ch st r rs s hs
  have hA : dictGet
      (Adafruit_NeoPixel.mk
        [("_leds", Attr.ledsRef), ("_channel", Attr.chanRef ch)]
        (some (builtStruct g num pin f d inv b ch st).1) 0 0 true).attrs
      "_leds" = some Attr.ledsRef := rfl
  refine ⟨?_, ?_, ?_, ?_, set_color_error_shape t p c e1,
    get_color_error_shape t p e2, pixel_count_error_shape t e3,
    set_brightness_error_shape t b2 e4, cleanup_error_shape t e5,
    cleanup_error_shape t e6, get_pixels_error_shape t e7,
    set_color_error_shape t p c e8, get_color_error_shape t p e9⟩
  · rw [show_spec _ _ hA]
    by_cases hr2 : r2 = WS2811_SUCCESS <;> simp [hr2]
  · rw [show_spec _ _ hA]
    by_cases hr2 : r2 = WS2811_SUCCESS <;> simp [hr2]
  · rw [show_spec _ _ hA]
    by_cases hr2 : r2 = WS2811_SUCCESS <;> simp [hr2]
    intro h
    exact h.symm
  · rw [init_snd]
    by_cases hr3 : r3 = WS2811_SUCCESS <;> simp [hr3]
    intro h
    exact h.symm

/-- C4 witness: the concrete strip with the driver failing render with
status -3; all remaining exclusivity facts instantiated at the same
concrete strip, index 0 and concrete exception values. -/
theorem c4_witness :
    (strip0.«show» (-3) retStr0 =
        Except.error (RenderError (-3) (retStr0 (-3))) ↔
      (-3 : Int) ≠ WS2811_SUCCESS) ∧
    (strip0.«show» (-3) retStr0 = Except.ok () ↔
      (-3 : Int) = WS2811_SUCCESS) ∧
    (strip0.«show» (-3) retStr0 = Except.error (PyErr.typeError "x") →
      PyErr.typeError "x" = RenderError (-3) (retStr0 (-3))) ∧
    ((Adafruit_NeoPixel.init garb0 3 18 800000 5 false 255 0 1052688
        (-5) retStr0).2 = Except.error (PyErr.typeError "x") →
      PyErr.typeError "x" = InitializationError (-5) (retStr0 (-5))) ∧
    (strip0.set_color (Pos.idx 0) (PyVal.int 1) =
        Except.error (PyErr.attributeError "channel") →
      (PyErr.attributeError "channel").isRuntime = false) ∧
    (strip0.get_color (Pos.idx 0) =
        Except.error (PyErr.attributeError "channel") →
      (PyErr.attributeError "channel").isRuntime = false) ∧
    (strip0.pixel_count = Except.error (PyErr.attributeError "x") →
      (PyErr.attributeError "x").isRuntime = false) ∧
    (strip0.set_brightness 128 = Except.error (PyErr.attributeError "x") →
      (PyErr.attributeError "x").isRuntime = false) ∧
    (strip0._cleanup = Except.error (PyErr.attributeError "x") →
      (PyErr.attributeError "x").isRuntime = false) ∧
    (strip0.__del__ = Except.error (PyErr.attributeError "x") →
      (PyErr.attributeError "x").isRuntime = false) ∧
    (strip0.get_pixels = Except.error (PyErr.attributeError "_led_data") →
      (PyErr.attributeError "_led_data").isRuntime = false) ∧
    (strip0.__setitem__ (Pos.idx 0) (PyVal.int 1) =
        Except.error (PyErr.attributeError "channel") →
      (PyErr.attributeError "channel").isRuntime = false) ∧
    (strip0.__getitem__ (Pos.idx 0) =
        Except.error (PyErr.attributeError "channel") →
      (PyErr.attributeError "channel").isRuntime = false) :=
  c4_show_raises_render_error_iff garb0 3 18 800000 5 false 255 0 1052688
    0 retStr0 strip0 rfl (-3) retStr0 (PyErr.typeError "x")
    garb0 3 18 800000 5 false 255 0 1052688 (-5) retStr0 (PyErr.typeError "x")
    strip0 (Pos.idx 0) (PyVal.int 1) 128
    (PyErr.attributeError "channel") (PyErr.attributeError "channel")
    (PyErr.attributeError "x") (PyErr.attributeError "x")
    (PyErr.attributeError "x") (PyErr.attributeError "x")
    (PyErr.attributeError "_led_data") (PyErr.attributeError "channel")
    (PyErr.attributeError "channel")

/-- C5: for channel components in [0,255], the packed `Color` value is
the base-256 big-endian composition of white, red, green, blue — the
arithmetic reading of `(white<<24)|(red<<16)|(green<<8)|blue` — and in
particular `Color(255, 0, 0, 0)` packs to 0x00FF0000. -/
theorem c5_color_packing (red green blue white : Nat)
    (hr : red ≤ 255) (hg : green ≤ 255) (hb : blue ≤ 255)
    (_hw : white ≤ 255) :
    (Color.make red green blue white).value =
      white * 16777216 + red * 65536 + green * 256 + blue ∧
    (Color.make 255 0 0 0).value = 0x00FF0000 := by
  have pow8 : (2 : Nat) ^ 8 = 256 := by norm_num
  have pow16 : (2 : Nat) ^ 16 = 65536 := by norm_num
  have pow24 : (2 : Nat) ^ 24 = 16777216 := by norm_num
  constructor
  · unfold Color.make
    have e8 : green <<< 8 = 2 ^ 8 * green := by
      rw [Nat.shiftLeft_eq]; ring
    have e16 : red <<< 16 = 2 ^ 16 * red := by
      rw [Nat.shiftLeft_eq]; ring
    have e24 : white <<< 24 = 2 ^ 24 * white := by
      rw [Nat.shiftLeft_eq]; ring
    have hb8 : blue < 2 ^ 8 := by rw [pow8]; omega
    have h1 : 2 ^ 8 * green ||| blue = 2 ^ 8 * green + blue :=
      (Nat.mul_add_lt_is_or hb8 green).symm
    have hgb16 : 2 ^ 8 * green + blue < 2 ^ 16 := by
      rw [pow8, pow16]; omega
    have h2 : 2 ^ 16 * red ||| (2 ^ 8 * green + blue) =
        2 ^ 16 * red + (2 ^ 8 * green + blue) :=
      (Nat.mul_add_lt_is_or hgb16 red).symm
    have hrgb24 : 2 ^ 16 * red + (2 ^ 8 * green + blue) < 2 ^ 24 := by
      rw [pow8, pow16, pow24]; omega
    have h3 : 2 ^ 24 * white ||| (2 ^ 16 * red + (2 ^ 8 * green + blue)) =
        2 ^ 24 * white + (2 ^ 16 * red + (2 ^ 8 * green + blue)) :=
      (Nat.mul_add_lt_is_or hrgb24 white).symm
    calc (white <<< 24 ||| red <<< 16 ||| green <<< 8 ||| blue : Nat)
        = 2 ^ 24 * white ||| (2 ^ 16 * red ||| (2 ^ 8 * green ||| blue)) := by
          rw [e24, e16, e8, Nat.lor_assoc, Nat.lor_assoc]
      _ = 2 ^ 24 * white + (2 ^ 16 * red + (2 ^ 8 * green + blue)) := by
          rw [h1, h2, h3]
      _ = white * 16777216 + red * 65536 + green * 256 + blue := by
          rw [pow8, pow16, pow24]; ring
  · decide

/-- C5 witness: components (1, 2, 3, 4) satisfy the range bounds and pack
to the base-256 composition; (255, 0, 0, 0) packs to 0x00FF0000. -/
theorem c5_witness :
    (Color.make 1 2 3 4).value = 4 * 16777216 + 1 * 65536 + 2 * 256 + 3 ∧
    (Color.make 255 0 0 0).value = 0x00FF0000 :=
  c5_color_packing 1 2 3 4 (by decide) (by decide) (by decide) (by decide)

/-- C6: teardown is idempotent.  On a constructed strip the first
`_cleanup` releases the handle — it calls the driver release entry points
exactly once each, discards the native structure and nulls the
attributes — and every further `_cleanup` on the result succeeds, changes
nothing, and calls no driver release function again (the counters stay at
one). -/
theorem c6_teardown_idempotent
    (g : Ws2811) (num pin f d : Int) (inv : Bool) (b : Int) (ch : Nat)
    (st r : Int) (rs : Int → String) (s s1 : Adafruit_NeoPixel)
    (hs : (Adafruit_NeoPixel.init g num pin f d inv b ch st r rs).2 =
      Except.ok s)
    (h1 : s._cleanup = Except.ok s1) :
    s1._cleanup = Except.ok s1 ∧
    s.finiCalls = 0 ∧ s.deleteCalls = 0 ∧
    s1.finiCalls = 1 ∧ s1.deleteCalls = 1 ∧
    s1.struct = none := by
  obtain ⟨-, rfl⟩ := init_ok_elim g num pin f d inv b ch st r rs s hs
  simp [Adafruit_NeoPixel._cleanup, Adafruit_NeoPixel.getattr, dictGet,
    dictSet] at h1
  subst h1
  exact ⟨rfl, rfl, rfl, rfl, rfl, rfl⟩

/-- C6 witness: the concrete strip; after its first teardown the second
teardown is a no-op and both release counters remain at one. -/
theorem c6_witness :
    strip0c._cleanup = Except.ok strip0c ∧
    strip0.finiCalls = 0 ∧ strip0.deleteCalls = 0 ∧
    strip0c.finiCalls = 1 ∧ strip0c.deleteCalls = 1 ∧
    strip0c.struct = none :=
  c6_teardown_idempotent garb0 3 18 800000 5 false 255 0 1052688 0 retStr0
    strip0 strip0c rfl rfl

/-- C7: after successful construction with pixel count `num`, the
`pixel_count` property returns `num`; and it is read from the driver-side
channel structure at call time, not from a cached Python-side copy: if
the count field of the active channel of the owned structure `w` is set
driver-side to any `v`, the property immediately returns `v`. -/
theorem c7_pixel_count_is_live_channel_count
    (g : Ws2811) (num pin f d : Int) (inv : Bool) (b : Int) (ch : Nat)
    (st r : Int) (rs : Int → String) (s : Adafruit_NeoPixel)
    (hs : (Adafruit_NeoPixel.init g num pin f d inv b ch st r rs).2 =
      Except.ok s)
    (w : Ws2811) (hw : s.struct = some w) (v : Int) :
    s.pixel_count = Except.ok num ∧
    Adafruit_NeoPixel.pixel_count
      { s with struct := some ((ws2811_channel_t_count_set (w, []) ch v).1) } =
      Except.ok v := by
  obtain ⟨-, rfl⟩ := init_ok_elim g num pin f d inv b ch st r rs s hs
  rw [Option.some.injEq] at hw
  subst hw
  constructor
  · unfold Adafruit_NeoPixel.pixel_count Adafruit_NeoPixel.getattr
      ws2811_channel_t_count_get
    simp [dictGet, builtStruct_chans_sel]
  · unfold Adafruit_NeoPixel.pixel_count Adafruit_NeoPixel.getattr
      ws2811_channel_t_count_get
    simp [dictGet, ws2811_channel_t_count_set, updChan]

/-- C7 witness: the concrete 3-pixel strip reports pixel_count 3, and
after a driver-side overwrite of the channel count to 7 it reports 7. -/
theorem c7_witness :
    strip0.pixel_count = Except.ok 3 ∧
    Adafruit_NeoPixel.pixel_count
      { strip0 with struct := some ((ws2811_channel_t_count_set ((builtStruct garb0 3 18 800000 5 false 255 0 1052688).1, []) 0 7).1) } =
      Except.ok 7 :=
  c7_pixel_count_is_live_channel_count garb0 3 18 800000 5 false 255 0
    1052688 0 retStr0 strip0 rfl
    ((builtStruct garb0 3 18 800000 5 false 255 0 1052688).1) rfl 7

/-- C8: construction performs, in this order: allocation, zeroing of
count, GPIO number, invert and brightness on both hardware channel slots
0 and 1, population of the selected channel slot's five fields from the
given parameters, the two controller-level setters, registration of the
process-exit cleanup callback, and only then the driver init call (the
full effect trace is exactly this sequence).  Afterwards the constructed
instance has the cleanup callback registered, the selected slot carries
the given parameters, and an unselected slot `j` among 0 and 1 keeps its
four zeroed fields. -/
theorem c8_construction_order_and_channel_population
    (g : Ws2811) (num pin f d : Int) (inv : Bool) (b : Int) (ch : Nat)
    (st r : Int) (rs : Int → String) (s : Adafruit_NeoPixel)
    (hs : (Adafruit_NeoPixel.init g num pin f d inv b ch st r rs).2 =
      Except.ok s)
    (w : Ws2811) (hw : s.struct = some w)
    (j : Nat) (hj : j = 0 ∨ j = 1) (hne : j ≠ ch) :
    (Adafruit_NeoPixel.init g num pin f d inv b ch st r rs).1 =
      [Ev.newStruct,
       Ev.chanFieldSet 0 ChanField.count 0,
       Ev.chanFieldSet 0 ChanField.gpionum 0,
       Ev.chanFieldSet 0 ChanField.invert 0,
       Ev.chanFieldSet 0 ChanField.brightness 0,
       Ev.chanFieldSet 1 ChanField.count 0,
       Ev.chanFieldSet 1 ChanField.gpionum 0,
       Ev.chanFieldSet 1 ChanField.invert 0,
       Ev.chanFieldSet 1 ChanField.brightness 0,
       Ev.chanFieldSet ch ChanField.count num,
       Ev.chanFieldSet ch ChanField.gpionum pin,
       Ev.chanFieldSet ch ChanField.invert (if !inv then 0 else 1),
       Ev.chanFieldSet ch ChanField.brightness b,
       Ev.chanFieldSet ch ChanField.stripType st,
       Ev.freqSet f,
       Ev.dmanumSet d,
       Ev.atexitRegisterCleanup,
       Ev.initCall r] ∧
    s.atexitRegistered = true ∧
    (w.chans ch).count = num ∧
    (w.chans ch).gpionum = pin ∧
    (w.chans ch).invert = (if !inv then 0 else 1) ∧
    (w.chans ch).brightness = b ∧
    (w.chans ch).strip_type = st ∧
    (w.chans j).count = 0 ∧
    (w.chans j).gpionum = 0 ∧
    (w.chans j).invert = 0 ∧
    (w.chans j).brightness = 0 := by
  obtain ⟨-, rfl⟩ := init_ok_elim g num pin f d inv b ch st r rs s hs
  rw [Option.some.injEq] at hw
  subst hw
  refine ⟨init_fst g num pin f d inv b ch st r rs, rfl, ?_, ?_, ?_, ?_, ?_,
    ?_, ?_, ?_, ?_⟩ <;>
    simp [builtStruct_chans_sel, builtStruct_chans_other g num pin f d inv
      b ch st j hj hne]

/-- C8 witness: the concrete strip built on channel 0; the trace is the
concrete event sequence and the unselected slot 1 keeps its zeroed
fields. -/
theorem c8_witness :
    (Adafruit_NeoPixel.init garb0 3 18 800000 5 false 255 0 1052688
        0 retStr0).1 =
      [Ev.newStruct,
       Ev.chanFieldSet 0 ChanField.count 0,
       Ev.chanFieldSet 0 ChanField.gpionum 0,
       Ev.chanFieldSet 0 ChanField.invert 0,
       Ev.chanFieldSet 0 ChanField.brightness 0,
       Ev.chanFieldSet 1 ChanField.count 0,
       Ev.chanFieldSet 1 ChanField.gpionum 0,
       Ev.chanFieldSet 1 ChanField.invert 0,
       Ev.chanFieldSet 1 ChanField.brightness 0,
       Ev.chanFieldSet 0 ChanField.count 3,
       Ev.chanFieldSet 0 ChanField.gpionum 18,
       Ev.chanFieldSet 0 ChanField.invert (if !false then 0 else 1),
       Ev.chanFieldSet 0 ChanField.brightness 255,
       Ev.chanFieldSet 0 ChanField.stripType 1052688,
       Ev.freqSet 800000,
       Ev.dmanumSet 5,
       Ev.atexitRegisterCleanup,
       Ev.initCall 0] ∧
    strip0.atexitRegistered = true ∧
    (((builtStruct garb0 3 18 800000 5 false 255 0 1052688).1).chans 0).count = 3 ∧
    (((builtStruct garb0 3 18 800000 5 false 255 0 1052688).1).chans 0).gpionum = 18 ∧
    (((builtStruct garb0 3 18 800000 5 false 255 0 1052688).1).chans 0).invert =
      (if !false then 0 else 1) ∧
    (((builtStruct garb0 3 18 800000 5 false 255 0 1052688).1).chans 0).brightness = 255 ∧
    (((builtStruct garb0 3 18 800000 5 false 255 0 1052688).1).chans 0).strip_type = 1052688 ∧
    (((builtStruct garb0 3 18 800000 5 false 255 0 1052688).1).chans 1).count = 0 ∧
    (((builtStruct garb0 3 18 800000 5 false 255 0 1052688).1).chans 1).gpionum = 0 ∧
    (((builtStruct garb0 3 18 800000 5 false 255 0 1052688).1).chans 1).invert = 0 ∧
    (((builtStruct garb0 3 18 800000 5 false 255 0 1052688).1).chans 1).brightness = 0 :=
  c8_construction_order_and_channel_population garb0 3 18 800000 5 false
    255 0 1052688 0 retStr0 strip0 rfl
    ((builtStruct garb0 3 18 800000 5 false 255 0 1052688).1) rfl
    1 (Or.inr rfl) (by decide)

/-- C1: the claim says that for every constructed strip, `set_color(i, C)`
followed by `get_color(i)` returns `C`, both going directly through the
driver pixel accessor for the active channel.  On the code this is
impossible: both single-index forms read `self.channel`, an attribute no
method of the class ever assigns (the constructor assigns `_channel`), so
every single-index call raises `AttributeError('channel')` before any
driver access.  This theorem evaluates the code at the failing inputs:
on every reachable instance, both forms raise. -/
theorem c1_single_index_forms_raise_attribute_error
    (s : Adafruit_NeoPixel) (hs : Reachable s) (n : Int) (color : PyVal) :
    s.set_color (Pos.idx n) color =
      Except.error (PyErr.attributeError "channel") ∧
    s.get_color (Pos.idx n) =
      Except.error (PyErr.attributeError "channel") := by
  obtain ⟨hc, -, -⟩ := reachable_unassigned s hs
  constructor
  · unfold Adafruit_NeoPixel.set_color Adafruit_NeoPixel.getattr
    rw [hc]
  · unfold Adafruit_NeoPixel.get_color Adafruit_NeoPixel.getattr
    rw [hc]

/-- C1 witness: the concrete strip, setting pixel 0 to 0xFF0000 and
reading pixel 0, both raising `AttributeError('channel')`. -/
theorem c1_witness :
    strip0.set_color (Pos.idx 0) (PyVal.int 16711680) =
      Except.error (PyErr.attributeError "channel") ∧
    strip0.get_color (Pos.idx 0) =
      Except.error (PyErr.attributeError "channel") :=
  c1_single_index_forms_raise_attribute_error strip0
    (Reachable.constructed garb0 3 18 800000 5 false 255 0 1052688 0 retStr0
      strip0 rfl) 0 (PyVal.int 16711680)

/-- C2: the claim says the range (slice) forms of `set_color` and
`get_color` apply the single-pixel operation to each resolved index in
ascending order.  On the code this is impossible: both slice branches
first evaluate `self.size`, an attribute no method of the class ever
assigns, so every slice-form call raises `AttributeError('size')` before
resolving a single index (and `range(position.indices(...))` over a
3-tuple, plus `self.channel`, would fail afterwards anyway). -/
theorem c2_range_forms_raise_attribute_error
    (s : Adafruit_NeoPixel) (hs : Reachable s)
    (start stop step : Option Int) (colors : PyVal) :
    s.set_color (Pos.slc start stop step) colors =
      Except.error (PyErr.attributeError "size") ∧
    s.get_color (Pos.slc start stop step) =
      Except.error (PyErr.attributeError "size") := by
  obtain ⟨-, hsz, -⟩ := reachable_unassigned s hs
  constructor
  · unfold Adafruit_NeoPixel.set_color Adafruit_NeoPixel.getattr
    rw [hsz]
  · unfold Adafruit_NeoPixel.get_color Adafruit_NeoPixel.getattr
    rw [hsz]

/-- C2 witness: the concrete strip, slice-assigning `strip[0:2]` from a
two-color list and slice-reading `strip[0:2]`, both raising
`AttributeError('size')`. -/
theorem c2_witness :
    strip0.set_color (Pos.slc (some 0) (some 2) none)
      (PyVal.list [16711680, 65280]) =
      Except.error (PyErr.attributeError "size") ∧
    strip0.get_color (Pos.slc (some 0) (some 2) none) =
      Except.error (PyErr.attributeError "size") :=
  c2_range_forms_raise_attribute_error strip0
    (Reachable.constructed garb0 3 18 800000 5 false 255 0 1052688 0 retStr0
      strip0 rfl) (some 0) (some 2) none (PyVal.list [16711680, 65280])

/-- C9: the index-assignment and index-read operators are exactly the
named accessors: `strip[position] = color` is `set_color(position,
color)` and `strip[position]` is `get_color(position)`, for every
instance state, position (index or slice) and color value. -/
theorem c9_item_operators_are_the_named_accessors
    (s : Adafruit_NeoPixel) (p : Pos) (c : PyVal) :
    s.__setitem__ p c = s.set_color p c ∧ s.__getitem__ p = s.get_color p :=
  ⟨rfl, rfl⟩

/-- C10: on every reachable instance state, `get_pixels()` raises
`AttributeError('_led_data')`: the `_led_data` attribute it returns is
never assigned by the constructor or by any other operation of the
class. -/
theorem c10_get_pixels_raises_attribute_error
    (s : Adafruit_NeoPixel) (hs : Reachable s) :
    s.get_pixels = Except.error (PyErr.attributeError "_led_data") := by
  obtain ⟨-, -, hld⟩ := reachable_unassigned s hs
  unfold Adafruit_NeoPixel.get_pixels Adafruit_NeoPixel.getattr
  rw [hld]

/-- C10 witness: the concrete strip after a teardown step still raises
`AttributeError('_led_data')` from `get_pixels()`. -/
theorem c10_witness :
    strip0c.get_pixels = Except.error (PyErr.attributeError "_led_data") :=
  c10_get_pixels_raises_attribute_error strip0c
    (Reachable.cleanupStep strip0 strip0c
      (Reachable.constructed garb0 3 18 800000 5 false 255 0 1052688 0
        retStr0 strip0 rfl) rfl)
